import Mathlib

/-!
Verification development for the raintank-probe monitoring agent.

The Go source is shallowly embedded: pure fragments become Lean functions,
Go `float64` values coming out of JSON settings are modelled as `ℚ`,
Go `int64` / `time.Duration` (nanoseconds) as `ℤ`, and Go maps as
association lists.  External collaborators (the OS resolver, the ICMP
pinger, sockets, wall clocks) are modelled as explicit inputs, so every
branch of the embedded code is driven by data.
-/

namespace Worldping

/-- Truncation toward zero, the semantics of Go's `int(x)` conversion from
`float64`. -/
def ratTrunc (q : ℚ) : ℤ := if 0 ≤ q then ⌊q⌋ else ⌈q⌉

/-- Whether an `Except` value is a success; mirrors Go's `err == nil`
convention for a `(value, err)` return. -/
def exceptOk {ε α : Type} : Except ε α → Bool
  | .ok _ => true
  | .error _ => false

/-- A dynamic settings value, the shallow embedding of Go's `interface{}`
as it appears after JSON decoding (`string`, `float64`, `int64`, `bool`). -/
inductive GoVal where
  | str (s : String)
  | num (x : ℚ)
  | int (n : ℤ)
  | bool (b : Bool)
deriving DecidableEq

/-- The `map[string]interface{}` settings payload of a check. -/
abbrev Settings : Type := List (String × GoVal)

/-- Map indexing `settings[key]`: the first binding for the key, if any. -/
def lookupSetting (s : Settings) (key : String) : Option GoVal :=
  (s.find? (fun kv => kv.1 == key)).map (fun kv => kv.2)

/-! ## checks/ping.go : settings parsing -/

/-- Embedding of `checks.RaintankProbePing` (ping.go).  `Timeout` is a Go
`time.Duration`, i.e. nanoseconds. -/
structure RaintankProbePing where
  Hostname : String
  Timeout : ℤ
  IPVersion : String
deriving DecidableEq

/-- Embedding of `checks.NewRaintankPingProbe` (ping.go lines 181-224). -/
def NewRaintankPingProbe (settings : Settings) : Except String RaintankProbePing :=
  match lookupSetting settings "hostname" with
  | none => .error "no hostname passed."
  | some hv =>
    match hv with
    | .str hostname =>
      if hostname = "" then .error "no host passed."
      else
        match (match lookupSetting settings "timeout" with
               | none => Except.ok (5 : ℚ)
               | some (.num x) => Except.ok x
               | some _ => Except.error "invalid value for timeout, must be number.") with
        | .error e => .error e
        | .ok t =>
          if t ≤ 0 then .error "invalid value for timeout, must be greater then 0."
          else
            match (match lookupSetting settings "ipversion" with
                   | none => Except.ok "v4"
                   | some (.str v) => Except.ok v
                   | some _ => Except.error "invalid value for ipversion, must be string.") with
            | .error e => .error e
            | .ok ipv =>
              if ipv = "v4" ∨ ipv = "v6" ∨ ipv = "any" then
                .ok { Hostname := hostname
                      Timeout := 1000000 * ratTrunc (1000 * t)
                      IPVersion := ipv }
              else .error "ipversion must be v4, v6, or any."
    | _ => .error "invalid value for host, must be string."

/-! ## checks/dns.go : settings parsing -/

/-- Character-list worker for `goSplit`. -/
def goSplitAux (sep : Char) : List Char → List String
  | [] => [""]
  | c :: rest =>
    match goSplitAux sep rest with
    | [] => [String.mk [c]]
    | h :: t =>
      if c = sep then "" :: h :: t
      else String.mk (c :: h.data) :: t

/-- Embedding of Go's `strings.Split(s, sep)` for a one-character
separator: the pieces of `s` between occurrences of `sep`, always at
least one piece. -/
def goSplit (s : String) (sep : Char) : List String :=
  goSplitAux sep s.data

/-- Embedding of Go's `strings.ToLower` (the checks only compare against
ASCII keywords). -/
def goToLower (s : String) : String :=
  String.mk (s.data.map Char.toLower)

/-- The valid DNS record types with their wire values
(`recordTypeToWireType` in dns.go). -/
def recordTypeToWireType (t : String) : Option ℕ :=
  if t = "A" then some 1
  else if t = "AAAA" then some 28
  else if t = "CNAME" then some 5
  else if t = "MX" then some 15
  else if t = "NS" then some 2
  else if t = "PTR" then some 12
  else if t = "SOA" then some 6
  else if t = "SRV" then some 33
  else if t = "TXT" then some 16
  else none

/-- Embedding of `checks.RaintankProbeDns` (dns.go). -/
structure RaintankProbeDns where
  RecordName : String
  RecordType : String
  Servers : List String
  Port : ℤ
  Protocol : String
  Timeout : ℤ
deriving DecidableEq

/-- Embedding of `checks.NewRaintankDnsProbe` (dns.go lines 133-224). -/
def NewRaintankDnsProbe (settings : Settings) : Except String RaintankProbeDns :=
  match lookupSetting settings "name" with
  | none => .error "no record name passed."
  | some nv =>
    match nv with
    | .str recordName =>
      if recordName = "" then .error "no record name passed."
      else
        match lookupSetting settings "type" with
        | none => .error "no record type passed."
        | some tv =>
          match tv with
          | .str rt =>
            if (recordTypeToWireType rt).isSome = false then .error "invalid record type passed."
            else
              match lookupSetting settings "server" with
              | none => .error "no servers passed."
              | some sv =>
                match sv with
                | .str serverList =>
                  let servers := goSplit serverList ','
                  if servers.length = 0 then .error "no servers passed."
                  else
                    match (match lookupSetting settings "timeout" with
                           | none => Except.ok (5 : ℚ)
                           | some (.num x) => Except.ok x
                           | some _ => Except.error "invalid value for timeout, must be number.") with
                    | .error e => .error e
                    | .ok t =>
                      if t ≤ 0 then .error "invalid value for timeout, must be greater then 0."
                      else
                        match (match lookupSetting settings "port" with
                               | none => Except.ok (53 : ℤ)
                               | some (.num x) => Except.ok (ratTrunc x)
                               | some (.int n) => Except.ok n
                               | some _ => Except.error "invalid value for port, must be number.") with
                        | .error e => .error e
                        | .ok port =>
                          if port < 1 ∨ port > 65535 then .error "invalid port number."
                          else
                            match (match lookupSetting settings "protocol" with
                                   | none => Except.ok "udp"
                                   | some (.str v) => Except.ok (goToLower v)
                                   | some _ => Except.error "invalid value for protocol, must be string.") with
                            | .error e => .error e
                            | .ok proto =>
                              if proto = "udp" ∨ proto = "tcp" then
                                .ok { RecordName := recordName
                                      RecordType := rt
                                      Servers := servers
                                      Port := port
                                      Protocol := proto
                                      Timeout := 1000000 * ratTrunc (1000 * t) }
                              else .error "invalid protocol."
                | _ => .error "invalid value for server, must be string."
          | _ => .error "invalid value for type, must be string."
    | _ => .error "invalid value for name, must be string."

/-! ## checks/http.go and checks/https.go : settings parsing -/

/-- The `downloadLimit` size-string parser, embedding the case-insensitive
Go regular expression match against a digit run, an optional k/m
multiplier and an optional trailing b (http.go lines 339-355).
Go's int64 overflow on `ParseInt` and the subsequent multiplications is
not modelled; the claims only exercise small values. -/
def parseSizeString (s : String) : Option ℤ :=
  let lower := (goToLower s).data
  let digits := lower.takeWhile Char.isDigit
  let rest := String.mk (lower.drop digits.length)
  if digits.isEmpty then none
  else
    let n : ℕ := digits.foldl (fun acc c => acc * 10 + (c.toNat - 48)) 0
    if rest = "" ∨ rest = "b" then some (n : ℤ)
    else if rest = "k" ∨ rest = "kb" then some ((n : ℤ) * 1024)
    else if rest = "m" ∨ rest = "mb" then some ((n : ℤ) * 1024 * 1024)
    else none

/-- Embedding of `checks.RaintankProbeHTTP` (http.go). -/
structure RaintankProbeHTTP where
  Host : String
  Path : String
  Port : ℤ
  Method : String
  Headers : String
  ExpectRegex : String
  Body : String
  Timeout : ℤ
  DownloadLimit : ℤ
  IPVersion : String
deriving DecidableEq

/-- Embedding of `checks.NewRaintankHTTPProbe` (http.go lines 232-375). -/
def NewRaintankHTTPProbe (settings : Settings) : Except String RaintankProbeHTTP :=
  match lookupSetting settings "host" with
  | none => .error "no host passed."
  | some hv =>
    match hv with
    | .str host =>
      if host = "" then .error "no host passed."
      else
        match lookupSetting settings "path" with
        | none => .error "no path passed."
        | some pv =>
          match pv with
          | .str path0 =>
            let path := if path0 = "" then "/" else path0
            match (match lookupSetting settings "method" with
                   | none => Except.ok "GET"
                   | some (.str v) => Except.ok v
                   | some _ => Except.error "invalid value for method, must be string.") with
            | .error e => .error e
            | .ok method =>
              match (match lookupSetting settings "headers" with
                     | none => Except.ok ""
                     | some (.str v) => Except.ok v
                     | some _ => Except.error "invalid value for headers, must be string.") with
              | .error e => .error e
              | .ok headers =>
                match (match lookupSetting settings "expectRegex" with
                       | none => Except.ok ""
                       | some (.str v) => Except.ok v
                       | some _ => Except.error "invalid value for expectRegex, must be string.") with
                | .error e => .error e
                | .ok expectRegex =>
                  match (match lookupSetting settings "body" with
                         | none => Except.ok ""
                         | some (.str v) => Except.ok v
                         | some _ => Except.error "invalid value for body, must be string.") with
                  | .error e => .error e
                  | .ok bodyStr =>
                    match (match lookupSetting settings "timeout" with
                           | none => Except.ok (5 : ℚ)
                           | some (.num x) => Except.ok x
                           | some _ => Except.error "invalid value for timeout, must be number.") with
                    | .error e => .error e
                    | .ok t =>
                      if t ≤ 0 then .error "invalid value for timeout, must be greater then 0."
                      else
                        match (match lookupSetting settings "port" with
                               | none => Except.ok (80 : ℤ)
                               | some (.num x) => Except.ok (ratTrunc x)
                               | some (.int n) => Except.ok n
                               | some _ => Except.error "invalid value for port, must be number.") with
                        | .error e => .error e
                        | .ok port =>
                          if port < 1 ∨ port > 65535 then .error "invalid port number."
                          else
                            match (match lookupSetting settings "downloadLimit" with
                                   | none => Except.ok ((100 : ℤ) * 1024)
                                   | some (.num x) => Except.ok (ratTrunc x)
                                   | some (.int n) => Except.ok n
                                   | some (.str v) =>
                                     match parseSizeString v with
                                     | some n => Except.ok n
                                     | none => Except.error "invalid value for downloadLimit, must be number or size string."
                                   | some _ => Except.error "invalid value for downloadLimit, must be number or size string.") with
                            | .error e => .error e
                            | .ok downloadLimit =>
                              match (match lookupSetting settings "ipversion" with
                                     | none => Except.ok "v4"
                                     | some (.str v) => Except.ok v
                                     | some _ => Except.error "invalid value for ipversion, must be string.") with
                              | .error e => .error e
                              | .ok ipv =>
                                if ipv = "v4" ∨ ipv = "v6" ∨ ipv = "any" then
                                  .ok { Host := host, Path := path, Port := port
                                        Method := method, Headers := headers
                                        ExpectRegex := expectRegex, Body := bodyStr
                                        Timeout := 1000000 * ratTrunc (1000 * t)
                                        DownloadLimit := downloadLimit
                                        IPVersion := ipv }
                                else .error "ipversion must be v4, v6, or any."
          | _ => .error "invalid value for path, must be string."
    | _ => .error "invalid value for host, must be string."

/-- Embedding of `checks.RaintankProbeHTTPS` (https.go). -/
structure RaintankProbeHTTPS where
  Host : String
  Path : String
  Port : ℤ
  ValidateCert : Bool
  Method : String
  Headers : String
  ExpectRegex : String
  Body : String
  Timeout : ℤ
  DownloadLimit : ℤ
deriving DecidableEq

/-- Embedding of `checks.NewRaintankHTTPSProbe` (https.go lines 826-966). -/
def NewRaintankHTTPSProbe (settings : Settings) : Except String RaintankProbeHTTPS :=
  match lookupSetting settings "host" with
  | none => .error "no host passed."
  | some hv =>
    match hv with
    | .str host =>
      if host = "" then .error "no host passed."
      else
        match lookupSetting settings "path" with
        | none => .error "no path passed."
        | some pv =>
          match pv with
          | .str path0 =>
            let path := if path0 = "" then "/" else path0
            match (match lookupSetting settings "method" with
                   | none => Except.ok "GET"
                   | some (.str v) => Except.ok v
                   | some _ => Except.error "invalid value for method, must be string.") with
            | .error e => .error e
            | .ok method =>
              match (match lookupSetting settings "headers" with
                     | none => Except.ok ""
                     | some (.str v) => Except.ok v
                     | some _ => Except.error "invalid value for headers, must be string.") with
              | .error e => .error e
              | .ok headers =>
                match (match lookupSetting settings "expectRegex" with
                       | none => Except.ok ""
                       | some (.str v) => Except.ok v
                       | some _ => Except.error "invalid value for expectRegex, must be string.") with
                | .error e => .error e
                | .ok expectRegex =>
                  match (match lookupSetting settings "validateCert" with
                         | none => Except.ok true
                         | some (.bool b) => Except.ok b
                         | some _ => Except.error "invalid value for validateCert, must be boolean.") with
                  | .error e => .error e
                  | .ok validateCert =>
                    match (match lookupSetting settings "body" with
                           | none => Except.ok ""
                           | some (.str v) => Except.ok v
                           | some _ => Except.error "invalid value for body, must be string.") with
                    | .error e => .error e
                    | .ok bodyStr =>
                      match (match lookupSetting settings "timeout" with
                             | none => Except.ok (5 : ℚ)
                             | some (.num x) => Except.ok x
                             | some _ => Except.error "invalid value for timeout, must be number.") with
                      | .error e => .error e
                      | .ok t =>
                        if t ≤ 0 then .error "invalid value for timeout, must be greater then 0."
                        else
                          match (match lookupSetting settings "port" with
                                 | none => Except.ok (443 : ℤ)
                                 | some (.num x) => Except.ok (ratTrunc x)
                                 | some (.int n) => Except.ok n
                                 | some _ => Except.error "invalid value for port, must be number.") with
                          | .error e => .error e
                          | .ok port =>
                            if port < 1 ∨ port > 65535 then .error "invalid port number."
                            else
                              match (match lookupSetting settings "downloadLimit" with
                                     | none => Except.ok ((100 : ℤ) * 1024)
                                     | some (.num x) => Except.ok (ratTrunc x)
                                     | some (.int n) => Except.ok n
                                     | some (.str v) =>
                                       match parseSizeString v with
                                       | some n => Except.ok n
                                       | none => Except.error "invalid value for downloadLimit, must be number or size string."
                                     | some _ => Except.error "invalid value for downloadLimit, must be number or size string.") with
                              | .error e => .error e
                              | .ok downloadLimit =>
                                .ok { Host := host, Path := path, Port := port
                                      ValidateCert := validateCert
                                      Method := method, Headers := headers
                                      ExpectRegex := expectRegex, Body := bodyStr
                                      Timeout := 1000000 * ratTrunc (1000 * t)
                                      DownloadLimit := downloadLimit }
          | _ => .error "invalid value for path, must be string."
    | _ => .error "invalid value for host, must be string."

/-! ## scheduler (part_019) : GetCheck -/

/-- The check type enum (`m.CheckType`); the Go switch's default branch
for an unknown type string is unreachable with this closed enum. -/
inductive CheckType where
  | ping
  | dns
  | http
  | https
deriving DecidableEq

/-- String form of a check type, as used in metric names and event tags. -/
def CheckType.toStr : CheckType → String
  | .ping => "ping"
  | .dns => "dns"
  | .http => "http"
  | .https => "https"

/-- The executor produced by `GetCheck`, one of the four check strategies
(`RaintankProbeCheck` in part_019). -/
inductive Executor where
  | ping (p : RaintankProbePing)
  | dns (p : RaintankProbeDns)
  | http (p : RaintankProbeHTTP)
  | https (p : RaintankProbeHTTPS)
deriving DecidableEq

/-- Embedding of `scheduler.GetCheck` (part_019 lines 354-368). -/
def GetCheck (checkType : CheckType) (settings : Settings) : Except String Executor :=
  match checkType with
  | .ping =>
    match NewRaintankPingProbe settings with
    | .ok p => .ok (.ping p)
    | .error e => .error e
  | .dns =>
    match NewRaintankDnsProbe settings with
    | .ok p => .ok (.dns p)
    | .error e => .error e
  | .http =>
    match NewRaintankHTTPProbe settings with
    | .ok p => .ok (.http p)
    | .error e => .error e
  | .https =>
    match NewRaintankHTTPSProbe settings with
    | .ok p => .ok (.https p)
    | .error e => .error e

/-! ## checks/common.go : ResolveHost -/

/-- IPv6 detection as http.go/common.go do it: the address string contains
a colon or a percent sign. -/
def addrIsV6 (addr : String) : Bool :=
  addr.data.any (fun c => c = ':' ∨ c = '%')

/-- The address-selection loop of `checks.ResolveHost` (common.go lines
24-38): walk the resolved addresses and return the first one allowed by
the ipversion filter. -/
def resolveFirst (ipversion : String) : List String → Option String
  | [] => none
  | addr :: rest =>
    if ipversion = "any" then some addr
    else if addrIsV6 addr then
      if ipversion = "v6" then some addr else resolveFirst ipversion rest
    else
      if ipversion = "v4" then some addr else resolveFirst ipversion rest

/-- Embedding of `checks.ResolveHost` (common.go lines 18-41).  The
`net.LookupHost` call is an external collaborator, so its outcome is the
`lookup` argument. -/
def ResolveHost (lookup : Except String (List String)) (ipversion : String) :
    Except String String :=
  match lookup with
  | .error _ => .error "failed to resolve hostname to IP."
  | .ok addrs =>
    if addrs.length < 1 then .error "failed to resolve hostname to IP."
    else
      match resolveFirst ipversion addrs with
      | some addr => .ok addr
      | none => .error "failed to resolve hostname to valid IP."

/-- One address passing the ipversion filter of `ResolveHost`: used to
characterize the loop as a first-match search. -/
def ipvMatches (ipversion : String) (addr : String) : Bool :=
  ipversion = "any" ∨ (addrIsV6 addr ∧ ipversion = "v6")
    ∨ (¬addrIsV6 addr ∧ ipversion = "v4")

/-- Decimal byte of a dotted-quad IPv4 literal. -/
def parseDecByte (s : String) : Option ℕ :=
  if s.data ≠ [] ∧ s.data.all Char.isDigit ∧ s.data.length ≤ 3 then
    let n := s.data.foldl (fun acc c => acc * 10 + (c.toNat - 48)) 0
    if n ≤ 255 then some n else none
  else none

/-- Modelled from the spec: the qualification "globally unicast or
loopback" that §4.2 attributes to the DNS-lookup phase (Go's
`net.IP.IsGlobalUnicast` / `IsLoopback`), spelled out for dotted-quad
IPv4 literals, which is what the refutation exercises.  Strings that do
not parse as IPv4 dotted-quads are not qualified by this model. -/
def specGlobalUnicastOrLoopback (addr : String) : Bool :=
  match (goSplit addr '.').map parseDecByte with
  | [some a, some b, some c, some d] =>
    let loopback := a = 127
    let unspecified := a = 0 ∧ b = 0 ∧ c = 0 ∧ d = 0
    let multicast := 224 ≤ a ∧ a ≤ 239
    let broadcast := a = 255 ∧ b = 255 ∧ c = 255 ∧ d = 255
    let linkLocalUnicast := a = 169 ∧ b = 254
    loopback ∨ (¬unspecified ∧ ¬multicast ∧ ¬broadcast ∧ ¬linkLocalUnicast)
  | _ => false

/-! ## go-pinger and checks/ping.go : the ping run -/

/-- Embedding of go-pinger's `PingStats`.  `Latency` entries are Go
`time.Duration` values (nanoseconds). -/
structure PingStats where
  Sent : ℤ
  Received : ℤ
  Latency : List ℤ
deriving DecidableEq

/-- go-pinger's stats assembly (`Pinger.Ping`, final loop): one request
per echo sent; a request contributes a latency exactly when a reply was
received for it.  `reqs` holds, per request, the measured latency of the
reply if one arrived. -/
def pingStats (reqs : List (Option ℤ)) : PingStats :=
  { Sent := (reqs.length : ℤ)
    Received := ((reqs.filterMap id).length : ℤ)
    Latency := reqs.filterMap id }

/-- Embedding of `checks.PingResult` (ping.go).  The source stores
`Mdev = math.Sqrt(tsum2/n - (tsum/n)²)`; the square root is irrational in
general, so this embedding records the radicand (`MdevSq`); field
presence, which is all the claims consult, is unchanged. -/
structure PingResult where
  Loss : Option ℚ := none
  Min : Option ℚ := none
  Max : Option ℚ := none
  Avg : Option ℚ := none
  Median : Option ℚ := none
  MdevSq : Option ℚ := none
  Error : Option String := none
deriving DecidableEq

/-- The measurement vector of `RaintankProbePing.Run` (ping.go lines
253-261): one slot per pinger latency; replies slower than the timeout
are skipped, leaving the zero the slice was allocated with; the rest are
converted from nanoseconds to milliseconds. -/
def pingMeasurements (timeout : ℤ) (stats : PingStats) : List ℚ :=
  stats.Latency.map (fun m => if timeout < m then 0 else (m : ℚ) / 1000000)

/-- `successCount` after the reclassification loop of ping.go: received
replies minus those slower than the timeout. -/
def pingSuccessCount (timeout : ℤ) (stats : PingStats) : ℤ :=
  stats.Received - ((stats.Latency.filter (fun m => timeout < m)).length : ℤ)

/-- `failCount` after the reclassification loop of ping.go. -/
def pingFailCount (timeout : ℤ) (stats : PingStats) : ℤ :=
  (stats.Sent - stats.Received) + ((stats.Latency.filter (fun m => timeout < m)).length : ℤ)

/-- The running minimum of ping.go (seeded with `math.Inf(1)`; `none`
here plays the role of the untouched infinity, which with the pinger's
`Latency.length = Received` invariant is never published). -/
def pingMin (l : List ℚ) : Option ℚ :=
  l.foldl (fun acc r => match acc with
    | none => some r
    | some a => some (if r < a then r else a)) none

/-- The running maximum of ping.go (seeded with `0.0`). -/
def pingMax (l : List ℚ) : ℚ :=
  l.foldl (fun a r => if a < r then r else a) 0

/-- The stats-derivation part of `RaintankProbePing.Run` (ping.go lines
249-299), from the pinger's counts and latencies to the published
`PingResult`. -/
def pingRunStats (timeout : ℤ) (stats : PingStats) : PingResult :=
  let successCount := pingSuccessCount timeout stats
  let failCount := pingFailCount timeout stats
  let measurements := pingMeasurements timeout stats
  let tsum := measurements.foldl (· + ·) 0
  let tsum2 := measurements.foldl (fun a r => a + r * r) 0
  let base : PingResult :=
    if 0 < successCount then
      { Min := pingMin measurements
        Max := some (pingMax measurements)
        Avg := some (tsum / (successCount : ℚ))
        Median := some ((measurements.mergeSort (fun a b => a ≤ b)).getD (successCount.toNat / 2) 0)
        MdevSq := some (tsum2 / (successCount : ℚ)
          - (tsum / (successCount : ℚ)) * (tsum / (successCount : ℚ))) }
    else {}
  let loss : ℚ := if failCount = 0 then 0 else 100 * ((failCount : ℚ) / (stats.Sent : ℚ))
  let withLoss : PingResult := { base with Loss := some loss }
  if loss = 100 then { withLoss with Error := some "100% packet loss" } else withLoss

/-- External collaborators of `RaintankProbePing.Run`: the resolver
outcome, the wall clock at the post-resolve deadline check, and the
pinger call outcome. -/
structure PingEnv where
  lookup : Except String (List String)
  resolveTimedOut : Bool
  pinger : Except String PingStats

/-- Embedding of `RaintankProbePing.Run` (ping.go lines 226-302).  Note
that a pinger failure is returned as a Go error (`return nil, err`),
not encoded into the result. -/
def pingRun (p : RaintankProbePing) (env : PingEnv) : Except String PingResult :=
  match ResolveHost env.lookup p.IPVersion with
  | .error e => .ok { Error := some e }
  | .ok _ip =>
    if env.resolveTimedOut then
      .ok { Error := some "timeout resolving IP address of hostname." }
    else
      match env.pinger with
      | .error e => .error e
      | .ok stats => .ok (pingRunStats p.Timeout stats)

/-! ## checks/dns.go : the DNS run -/

/-- Embedding of `checks.DnsResult` (dns.go). -/
structure DnsResult where
  Time : Option ℚ := none
  Ttl : Option ℕ := none
  Answers : Option ℕ := none
  Error : Option String := none
deriving DecidableEq

/-- Outcome of one server iteration of `RaintankProbeDns.Run`: the
deadline was already past when the iteration started, or the exchange
failed (error or nil reply), or it succeeded with the client-reported
round-trip time (0 for tcp), the wall-clock elapsed fallback, and the
TTLs of the answer records.  Times are nanoseconds. -/
inductive DnsExchange where
  | deadlineHit
  | fail
  | ok (reportedRtt : ℤ) (elapsed : ℤ) (answerTtls : List ℕ)
deriving DecidableEq

/-- The server loop of `RaintankProbeDns.Run` (dns.go lines 238-270),
walking servers paired with their external outcomes. -/
def dnsRunLoop : List (String × DnsExchange) → DnsResult
  | [] => { Error := some "All target servers failed to respond" }
  | (_, outcome) :: rest =>
    match outcome with
    | .deadlineHit => { Error := some "timeout looking up dns record." }
    | .fail => dnsRunLoop rest
    | .ok reportedRtt elapsed answerTtls =>
      let t := if reportedRtt = 0 then elapsed else reportedRtt
      { Time := some ((t : ℚ) / 1000000)
        Answers := some answerTtls.length
        Ttl := answerTtls.head?
        Error := none }

/-- Embedding of `RaintankProbeDns.Run` (dns.go lines 227-271).  Every
server visited consumes one outcome; servers beyond the supplied
outcomes behave as exhausted (all remaining failed). -/
def dnsRun (p : RaintankProbeDns) (outcomes : List DnsExchange) : Except String DnsResult :=
  .ok (dnsRunLoop (p.Servers.zip outcomes))

/-! ## checks/http.go : the HTTP run -/

/-- A Go `net` error as the run branches on it: whether the dynamic type
is `*net.OpError`, whether `Timeout()` reports true, and `Error()`. -/
structure NetErr where
  isOpError : Bool
  isTimeout : Bool
  msg : String
deriving DecidableEq

/-- Embedding of `checks.HTTPResult` (http.go). -/
structure HTTPResult where
  DNS : Option ℚ := none
  Connect : Option ℚ := none
  Send : Option ℚ := none
  Wait : Option ℚ := none
  Recv : Option ℚ := none
  Total : Option ℚ := none
  DataLength : Option ℚ := none
  Throughput : Option ℚ := none
  StatusCode : Option ℚ := none
  Error : Option String := none
deriving DecidableEq

/-- External collaborators of `RaintankProbeHTTP.Run`: per-phase I/O
outcomes and measured timings (milliseconds as Go floats), plus the
response metadata the tail of the run inspects.  The regexp and gzip
libraries are likewise treated as oracles. -/
structure HTTPEnv where
  newRequestErr : Option String
  headerParseErr : Option String
  lookup : Except String (List String)
  resolveTimedOut : Bool
  dnsMs : ℚ
  dialErr : Option NetErr
  connectMs : ℚ
  sendErr : Option NetErr
  sendMs : ℚ
  waitErr : Option NetErr
  waitMs : ℚ
  bodyReadErr : Option NetErr
  bodyLen : ℕ
  recvMs : ℚ
  totalMs : ℚ
  headersLen : ℕ
  statusCode : ℤ
  contentEncoding : String
  regexCompileErr : Option String
  gzipNewReaderErr : Option String
  gzipReadAllFailedEmpty : Option String
  regexMatched : Bool

/-- Embedding of `RaintankProbeHTTP.Run` (http.go lines 378-636): the
eight-phase measurement with every failure written into the result's
`Error` field, mirroring the branch structure and messages of the
source. -/
def httpRun (p : RaintankProbeHTTP) (env : HTTPEnv) : Except String HTTPResult :=
  match env.newRequestErr with
  | some e => .ok { Error := some ("Invalid request settings. " ++ e) }
  | none =>
    match (if p.Headers ≠ "" then env.headerParseErr else none) with
    | some e => .ok { Error := some e }
    | none =>
      match ResolveHost env.lookup p.IPVersion with
      | .error e => .ok { Error := some ("error resolving hostname. " ++ e) }
      | .ok _ip =>
        if env.resolveTimedOut then
          .ok { Error := some "error resolving hostname. timeout" }
        else
          match env.dialErr with
          | some e =>
            .ok { DNS := some env.dnsMs
                  Error := some (if e.isOpError ∧ e.isTimeout then "error connecting. timeout"
                                 else "error connecting. . " ++ e.msg) }
          | none =>
            match env.sendErr with
            | some e =>
              .ok { DNS := some env.dnsMs, Connect := some env.connectMs
                    Error := some (if e.isOpError ∧ e.isTimeout then "error sending request. timeout"
                                   else "error sending request. " ++ e.msg) }
            | none =>
              match env.waitErr with
              | some e =>
                .ok { DNS := some env.dnsMs, Connect := some env.connectMs
                      Send := some env.sendMs
                      Error := some (if e.isOpError ∧ e.isTimeout then "error reading response. timeout"
                                     else "error reading response. " ++ e.msg) }
              | none =>
                match env.bodyReadErr with
                | some e =>
                  .ok { DNS := some env.dnsMs, Connect := some env.connectMs
                        Send := some env.sendMs, Wait := some env.waitMs
                        Error := some (if e.isOpError ∧ e.isTimeout then "error reading response. timeout"
                                       else "error reading response. " ++ e.msg) }
                | none =>
                  let base : HTTPResult :=
                    { DNS := some env.dnsMs, Connect := some env.connectMs
                      Send := some env.sendMs, Wait := some env.waitMs
                      Recv := some env.recvMs, Total := some env.totalMs
                      DataLength := some (((env.bodyLen + env.headersLen : ℕ) : ℚ))
                      Throughput := if 0 < env.recvMs
                                    then some ((env.bodyLen : ℚ) / (env.recvMs / 1000))
                                    else none
                      StatusCode := some ((env.statusCode : ℚ)) }
                  if (400 : ℚ) ≤ (env.statusCode : ℚ) then
                    .ok { base with Error := some ("Invalid status code " ++ toString env.statusCode) }
                  else if p.ExpectRegex ≠ "" then
                    match env.regexCompileErr with
                    | some e => .ok { base with Error := some ("expectRegex error. " ++ e) }
                    | none =>
                      let enc := goToLower env.contentEncoding
                      if enc = "gzip" then
                        match env.gzipNewReaderErr with
                        | some e => .ok { base with Error := some ("error decoding content. " ++ e) }
                        | none =>
                          match env.gzipReadAllFailedEmpty with
                          | some e => .ok { base with Error := some ("error decoding content. " ++ e) }
                          | none =>
                            if env.regexMatched then .ok base
                            else .ok { base with Error := some "expectRegex did not match" }
                      else if enc = "" ∨ enc = "identity" then
                        if env.regexMatched then .ok base
                        else .ok { base with Error := some "expectRegex did not match" }
                      else
                        .ok { base with Error := some ("unrecognized Content-Encoding: " ++ env.contentEncoding) }
                  else .ok base

/-! ## checks/https.go : the HTTPS run -/

/-- A Go `net` error as `RaintankProbeHTTPS.Run` branches on it: an
`*net.OpError` whose `Timeout()` is true, an `*net.OpError` carrying its
`Op` and inner error text, or any other error with its `Error()` text. -/
inductive GoNetErr where
  | opTimeout
  | opErr (op : String) (errMsg : String)
  | plain (msg : String)
deriving DecidableEq

/-- The error message https.go builds from a `GoNetErr`, given the
phase-specific timeout wording. -/
def goNetErrMsg (timeoutMsg : String) : GoNetErr → String
  | .opTimeout => timeoutMsg
  | .opErr op m => op ++ " error. " ++ m
  | .plain m => m

/-- Embedding of `checks.HTTPSResult` (https.go second unit). -/
structure HTTPSResult where
  DNS : Option ℚ := none
  Connect : Option ℚ := none
  Send : Option ℚ := none
  Wait : Option ℚ := none
  Recv : Option ℚ := none
  Total : Option ℚ := none
  Throughput : Option ℚ := none
  DataLength : Option ℚ := none
  StatusCode : Option ℚ := none
  Expiry : Option ℚ := none
  Error : Option String := none
deriving DecidableEq

/-- External collaborators of `RaintankProbeHTTPS.Run`: per-phase I/O
outcomes and measured timings, the peer-certificate expiry when the
handshake produced certificates, and the response metadata the tail of
the run inspects.  The regexp and gzip libraries are treated as
oracles. -/
structure HTTPSEnv where
  newRequestErr : Option String
  headerParseErr : Option String
  lookup : Except String (List String)
  dnsMs : ℚ
  dialErr : Option GoNetErr
  handshakeErr : Option String
  connectMs : ℚ
  sendErr : Option GoNetErr
  sendMs : ℚ
  waitErr : Option GoNetErr
  waitMs : ℚ
  bodyReadErr : Option GoNetErr
  bodyLen : ℕ
  recvMs : ℚ
  totalMs : ℚ
  headersLen : ℕ
  statusCode : ℤ
  certExpirySecs : Option ℚ
  regexCompileErr : Option String
  contentEncoding : String
  gzipNewReaderErr : Option String
  gzipReadAllFailedEmpty : Option String
  regexMatched : Bool

/-- Embedding of `RaintankProbeHTTPS.Run` (https.go lines 969-1226):
the phased measurement with TLS handshake and certificate-expiry
capture, every failure written into the result's `Error` field with the
messages of the source.  The post-drain `if err != nil` at line 1166
re-tests the (already nil) `ReadResponse` error and is dead code, so it
has no branch here.  `certExpirySecs` is `none` exactly when the
source's `certs == nil || len(certs) < 1` logging branch is taken. -/
def httpsRun (p : RaintankProbeHTTPS) (env : HTTPSEnv) : Except String HTTPSResult :=
  match env.newRequestErr with
  | some e => .ok { Error := some ("Invalid request settings. " ++ e) }
  | none =>
    match (if p.Headers ≠ "" then env.headerParseErr else none) with
    | some e => .ok { Error := some e }
    | none =>
      match env.lookup with
      | .error _ => .ok { Error := some "failed to resolve hostname to IP." }
      | .ok addrs =>
        if addrs.length < 1 then .ok { Error := some "failed to resolve hostname to IP." }
        else
          match env.dialErr with
          | some e =>
            .ok { DNS := some env.dnsMs
                  Error := some (goNetErrMsg "timeout while connecting to host." e) }
          | none =>
            match env.handshakeErr with
            | some e => .ok { DNS := some env.dnsMs, Error := some e }
            | none =>
              match env.sendErr with
              | some e =>
                .ok { DNS := some env.dnsMs, Connect := some env.connectMs
                      Error := some (goNetErrMsg "timeout while sending request." e) }
              | none =>
                match env.waitErr with
                | some e =>
                  .ok { DNS := some env.dnsMs, Connect := some env.connectMs
                        Send := some env.sendMs
                        Error := some (goNetErrMsg "timeout while waiting for response." e) }
                | none =>
                  match env.bodyReadErr with
                  | some e =>
                    .ok { DNS := some env.dnsMs, Connect := some env.connectMs
                          Send := some env.sendMs, Wait := some env.waitMs
                          Error := some (goNetErrMsg "timeout while receiving response." e) }
                  | none =>
                    let base : HTTPSResult :=
                      { DNS := some env.dnsMs, Connect := some env.connectMs
                        Send := some env.sendMs, Wait := some env.waitMs
                        Recv := some env.recvMs, Total := some env.totalMs
                        DataLength := some (((env.bodyLen + env.headersLen : ℕ) : ℚ))
                        Throughput := if 0 < env.recvMs
                                      then some ((env.bodyLen : ℚ) / (env.recvMs / 1000))
                                      else none
                        StatusCode := some ((env.statusCode : ℚ)) }
                    if (400 : ℚ) ≤ (env.statusCode : ℚ) then
                      .ok { base with Error := some ("Invalid status code " ++ toString env.statusCode) }
                    else
                      let withExpiry : HTTPSResult :=
                        match env.certExpirySecs with
                        | some e => { base with Expiry := some e }
                        | none => base
                      if p.ExpectRegex ≠ "" then
                        match env.regexCompileErr with
                        | some e => .ok { withExpiry with Error := some e }
                        | none =>
                          if env.contentEncoding = "gzip" then
                            match env.gzipNewReaderErr with
                            | some e => .ok { withExpiry with Error := some e }
                            | none =>
                              match env.gzipReadAllFailedEmpty with
                              | some e => .ok { withExpiry with Error := some e }
                              | none =>
                                if env.regexMatched then .ok withExpiry
                                else .ok { withExpiry with Error := some "expectRegex did not match" }
                          else
                            if env.regexMatched then .ok withExpiry
                            else .ok { withExpiry with Error := some "expectRegex did not match" }
                      else .ok withExpiry

/-! ## healthz.go second unit (scheduler/ticker.go) : the Ticker -/

/-- The next-fire computation of `Ticker.next` (healthz.go lines
115-138): seconds to wait before the next tick, from the interval, the
phase offset and the current wall-clock second.  Go's `%` on `int64`
truncates toward zero, which `Int.tmod` mirrors. -/
def tickerNext (interval offset now : ℤ) : ℤ :=
  let nextTick := Int.tmod ((interval + offset) - Int.tmod now interval) interval
  if nextTick = 0 then interval else nextTick

/-- State of one Ticker's delivery machinery: the contents of the
buffered channel `C`, its capacity (`make(chan time.Time, 1)`), whether
`C` has been closed, the `stopped` flag, whether the underlying timer is
armed, and whether the `shutdown` channel has been closed. -/
structure TickerProcState where
  buf : List ℤ
  capacity : ℕ
  closed : Bool
  stopped : Bool
  armed : Bool
  shutdownFlag : Bool
deriving DecidableEq

/-- Events of the Ticker transition system: the public operations plus
the internal transitions of the `Ticks` goroutine (a timer firing that
hands the tick to `C`, the consumer reading `C`, and the select taking
the shutdown branch and closing `C`). -/
inductive TickerOp where
  | start
  | stop
  | delete
  | deliver (ts : ℤ)
  | consume
  | closeChan
deriving DecidableEq

/-- `NewTicker` (healthz.go lines 83-92): stopped, with a fresh
capacity-one channel and no timer armed yet. -/
def newTickerState : TickerProcState :=
  { buf := [], capacity := 1, closed := false, stopped := true,
    armed := false, shutdownFlag := false }

/-- One transition of the Ticker system; `none` when the transition is
not enabled in the given state.  `deliver` is the timer branch of the
`Ticks` select: the send on `C` blocks until the buffer has room, and
only after the send does `next()` re-arm the timer (and only when not
stopped).  `closeChan` is the shutdown branch: it closes `C` and ends
the loop.  `delete` is `Ticker.Delete`: `Stop()` then closing the
shutdown channel (closing twice would panic, hence the guard). -/
def tickerStep (s : TickerProcState) : TickerOp → Option TickerProcState
  | .start => some { s with stopped := false, armed := true }
  | .stop => some { s with stopped := true }
  | .delete =>
    if s.shutdownFlag = false then
      some { s with stopped := true, shutdownFlag := true }
    else none
  | .deliver ts =>
    if s.armed = true ∧ s.closed = false ∧ s.buf.length < s.capacity then
      some { s with buf := s.buf ++ [ts], armed := !s.stopped }
    else none
  | .consume =>
    match s.buf with
    | [] => none
    | _ :: rest => some { s with buf := rest }
  | .closeChan =>
    if s.shutdownFlag = true ∧ s.closed = false then
      some { s with closed := true, armed := false }
    else none

/-- Run a sequence of Ticker transitions from a state. -/
def tickerRun (s : TickerProcState) : List TickerOp → Option TickerProcState
  | [] => some s
  | op :: rest =>
    match tickerStep s op with
    | none => none
    | some s2 => tickerRun s2 rest

/-! ## scheduler (part_019) : check instances, the run loop, Refresh -/

/-- `m.CheckEvalResult` from worldping-api. -/
inductive CheckEvalResult where
  | unknown
  | ok
  | warn
  | crit
deriving DecidableEq

/-- Embedding of `m.CheckWithSlug`: the check definition pushed by the
control plane.  `ctype` is the Go field `Type` (a Lean keyword);
`Updated` is a `time.Time` in nanoseconds. -/
structure CheckWithSlug where
  Id : ℤ
  OrgId : ℤ
  Slug : String
  ctype : CheckType
  Frequency : ℤ
  Offset : ℤ
  Enabled : Bool
  Updated : ℤ
  Settings : Settings
deriving DecidableEq

/-- Embedding of `eventMsg.ProbeEvent` as built in part_019; the three
tag map entries become fields. -/
structure ProbeEvent where
  EventType : String
  OrgId : ℤ
  Severity : String
  Source : String
  Timestamp : ℤ
  Message : String
  TagEndpoint : String
  TagCollector : String
  TagMonitorType : String
deriving DecidableEq

/-- The slice of a `CheckInstance` that the state-change logic of
`run` reads and writes: the snapshot fields `State`, `StateChange`
and `LastError`. -/
structure InstanceRunState where
  State : CheckEvalResult
  StateChange : ℤ
  LastError : String
deriving DecidableEq

/-- The state-change/event part of `CheckInstance.run` (part_019 lines
128-178): from the snapshotted prior state and the executor's error
message, the updated state and the event published, if any.  `t` is the
tick timestamp and `now` the wall clock (both nanoseconds); the source
reads `time.Now()` twice in this region, once for the age comparison
and once for the recorded `StateChange`, collapsed here to one instant. -/
def checkRunEvents (st : InstanceRunState) (errorMsg : String) (check : CheckWithSlug)
    (probeSlug : String) (t now : ℤ) : InstanceRunState × Option ProbeEvent :=
  if errorMsg ≠ "" then
    let newState := CheckEvalResult.crit
    if st.State ≠ newState ∨ errorMsg ≠ st.LastError ∨ 600 * 1000000000 < now - st.StateChange then
      ({ State := newState, StateChange := now, LastError := errorMsg },
       some { EventType := "monitor_state", OrgId := check.OrgId, Severity := "ERROR",
              Source := "monitor_collector", Timestamp := Int.tdiv t 1000000,
              Message := errorMsg, TagEndpoint := check.Slug, TagCollector := probeSlug,
              TagMonitorType := check.ctype.toStr })
    else (st, none)
  else
    if st.State ≠ CheckEvalResult.ok then
      ({ st with State := CheckEvalResult.ok, StateChange := now },
       some { EventType := "monitor_state", OrgId := check.OrgId, Severity := "OK",
              Source := "monitor_collector", Timestamp := Int.tdiv t 1000000,
              Message := "Monitor now Ok.", TagEndpoint := check.Slug,
              TagCollector := probeSlug, TagMonitorType := check.ctype.toStr })
    else (st, none)

/-- Embedding of `scheduler.CheckInstance`: the check definition, its
executor, its evaluation state and its Ticker's configuration. -/
structure CheckInstance where
  check : CheckWithSlug
  exec : Executor
  state : CheckEvalResult
  tickerItv : ℤ
  tickerOff : ℤ
  tickerStopped : Bool
deriving DecidableEq

/-- Embedding of `scheduler.NewCheckInstance` (part_019 lines 33-50):
build the executor from the settings, start in the unknown state with a
fresh stopped Ticker on the check's frequency and offset, then `Run()`
(start the ticker) when the probe is healthy. -/
def NewCheckInstance (c : CheckWithSlug) (probeHealthy : Bool) : Except String CheckInstance :=
  match GetCheck c.ctype c.Settings with
  | .error e => .error e
  | .ok ex =>
    .ok { check := c, exec := ex, state := .unknown,
          tickerItv := c.Frequency, tickerOff := c.Offset,
          tickerStopped := !probeHealthy }

/-- Embedding of `CheckInstance.Update` (part_019 lines 52-64): build
the new executor, then swap in the new definition and executor and
re-phase the Ticker.  The `probeHealthy` argument is accepted and
ignored, as in the source. -/
def instanceUpdate (i : CheckInstance) (c : CheckWithSlug) (_probeHealthy : Bool) :
    Except String CheckInstance :=
  match GetCheck c.ctype c.Settings with
  | .error e => .error e
  | .ok ex =>
    .ok { i with check := c, exec := ex, tickerItv := c.Frequency, tickerOff := c.Offset }

/-- The scheduler's `Checks map[int64]*CheckInstance`, as an association
list with Go-map semantics (at most one binding per key in any map built
by the operations below). -/
abbrev SMap : Type := List (ℤ × CheckInstance)

/-- Go map indexing `m[k]`. -/
def mapLookup (m : SMap) (k : ℤ) : Option CheckInstance :=
  (m.find? (fun kv => kv.1 == k)).map (fun kv => kv.2)

/-- Go map assignment `m[k] = v`. -/
def mapInsert (m : SMap) (k : ℤ) (v : CheckInstance) : SMap :=
  if (mapLookup m k).isSome then
    m.map (fun kv => if kv.1 = k then (k, v) else kv)
  else m ++ [(k, v)]

/-- Go `delete(m, k)`. -/
def mapErase (m : SMap) (k : ℤ) : SMap :=
  m.filter (fun kv => kv.1 != k)

/-- Embedding of `scheduler.Scheduler` (part_019 lines 218-223). -/
structure Scheduler where
  Checks : SMap
  HealthHosts : List String
  Healthy : Bool

/-- The first loop of `Scheduler.Refresh` (part_019 lines 261-286): walk
the incoming checks; skip disabled ones; update a known id whose
definition is strictly newer (dropping it if the new settings are
invalid); instantiate unknown ids (skipping them if their settings are
invalid). -/
def refreshLoop (healthy : Bool) : SMap → List CheckWithSlug → SMap
  | m, [] => m
  | m, c :: rest =>
    if c.Enabled = false then refreshLoop healthy m rest
    else
      match mapLookup m c.Id with
      | some existing =>
        if existing.check.Updated < c.Updated then
          match instanceUpdate existing c healthy with
          | .ok inst => refreshLoop healthy (mapInsert m c.Id inst) rest
          | .error _ => refreshLoop healthy (mapErase m c.Id) rest
        else refreshLoop healthy m rest
      | none =>
        match NewCheckInstance c healthy with
        | .ok inst => refreshLoop healthy (mapInsert m c.Id inst) rest
        | .error _ => refreshLoop healthy m rest

/-- The `seenChecks` set of `Scheduler.Refresh`: the ids of the enabled
incoming checks. -/
def seenChecks (cs : List CheckWithSlug) : List ℤ :=
  (cs.filter (fun c => c.Enabled)).map (fun c => c.Id)

/-- Embedding of `Scheduler.Refresh` (part_019 lines 257-297): the
reconciliation loop followed by the deletion of every local id not seen
among the enabled incoming checks. -/
def Scheduler.Refresh (s : Scheduler) (cs : List CheckWithSlug) : Scheduler :=
  let afterLoop := refreshLoop s.Healthy s.Checks cs
  { s with Checks := afterLoop.filter (fun kv => (seenChecks cs).contains kv.1) }

/-! ## publisher (part_001 third unit) : NewTsdb -/

/-- The fields of the `http.Transport` built by `NewTsdb`, with
`tlsNextProtoEmptyNonNil` recording that `TLSNextProto` was set to an
empty, non-nil map (which is what disables HTTP/2 on a transport). -/
structure HTTPTransport where
  tlsNextProtoEmptyNonNil : Bool
  maxIdleConns : ℕ
  idleConnTimeout : ℤ
  tlsHandshakeTimeout : ℤ
  expectContinueTimeout : ℤ
deriving DecidableEq

/-- An `http.Client`: `transport = none` is Go's nil `Transport` field,
meaning the client falls back to `http.DefaultTransport` (HTTP/2
enabled). -/
structure HTTPClient where
  transport : Option HTTPTransport
  timeout : ℤ
deriving DecidableEq

/-- Embedding of the publisher's `Tsdb` (part_001 lines 452-464), kept
to the construction-relevant fields. -/
structure Tsdb where
  tsdbUrl : String
  tsdbKey : String
  concurrency : ℕ
  client : HTTPClient
deriving DecidableEq

/-- Go's `strings.TrimSuffix(s, "/")`: drop one trailing slash. -/
def goTrimSuffixSlash (s : String) : String :=
  match s.data.getLast? with
  | some c => if c = '/' then String.mk s.data.dropLast else s
  | none => s

/-- Embedding of `publisher.NewTsdb` (part_001 lines 466-505).  The
source builds `transport`, a clone of Go's DefaultTransport, and sets
its `TLSNextProto` to an empty non-nil map to disable HTTP/2; but the
line that would install it, `t.client.Transport = transport`, is
commented out in the source, so the client is constructed with a nil
transport and only the 10-second timeout. -/
def NewTsdb (u apiKey : String) (concurrency : ℕ) : Tsdb :=
  let transport : HTTPTransport :=
    { tlsNextProtoEmptyNonNil := true
      maxIdleConns := 100
      idleConnTimeout := 90 * 1000000000
      tlsHandshakeTimeout := 10 * 1000000000
      expectContinueTimeout := 1000000000 }
  let _ := transport
  { tsdbUrl := goTrimSuffixSlash u
    tsdbKey := apiKey
    concurrency := concurrency
    client := { transport := none, timeout := 10 * 1000000000 } }

/-! ## Helper lemmas -/

theorem exceptOk_iff {ε α : Type} (x : Except ε α) :
    exceptOk x = true ↔ ∃ a, x = .ok a := by
  cases x <;> simp [exceptOk]

theorem resolveFirst_eq_find (ipversion : String) (l : List String) :
    resolveFirst ipversion l = l.find? (ipvMatches ipversion) := by
  induction l with
  | nil => rfl
  | cons a rest ih =>
    unfold resolveFirst
    by_cases h1 : ipversion = "any"
    · simp [List.find?, ipvMatches, h1]
    · by_cases h2 : addrIsV6 a = true
      · by_cases h3 : ipversion = "v6"
        · simp [List.find?, ipvMatches, h1, h2, h3]
        · simp [List.find?, ipvMatches, h1, h2, h3, ih]
      · by_cases h4 : ipversion = "v4"
        · simp [List.find?, ipvMatches, h1, h2, h4]
        · simp [List.find?, ipvMatches, h1, h2, h4, ih]

/-! ## C8 : the publisher's HTTP client -/

/-- C8: `NewTsdb` gives the publisher's client the 10-second overall
request timeout, but it does NOT install the HTTP/2-disabling transport:
the assignment is commented out in the source, so the client's transport
is Go's nil (the HTTP/2-enabled `http.DefaultTransport`).  This records
the divergence from the claim, which expects the constructed transport
(with its empty non-nil `TLSNextProto`) to be the client's. -/
theorem NewTsdb_transport_not_installed (u apiKey : String) (concurrency : ℕ) :
    (NewTsdb u apiKey concurrency).client.timeout = 10 * 1000000000
    ∧ (NewTsdb u apiKey concurrency).client.transport = none :=
  ⟨rfl, rfl⟩

/-! ## C9 : ResolveHost -/

/-- C9 counterexample: `ResolveHost` returns the first address passing
the ipversion filter even when that address is neither globally unicast
nor loopback — here the multicast address 224.0.0.1 — whereas the claim
says such an address never qualifies and an error is returned. -/
theorem ResolveHost_qualification_counterexample :
    ResolveHost (.ok ["224.0.0.1"]) "v4" = .ok "224.0.0.1"
    ∧ specGlobalUnicastOrLoopback "224.0.0.1" = false :=
  ⟨rfl, by decide⟩

/-- C9 (amended): `ResolveHost` returns the first resolved address that
passes the ipversion filter — with no global-unicast-or-loopback
qualification — and errors when resolution fails, resolves to no
addresses, or no address passes the filter. -/
theorem ResolveHost_first_match_amended (lookup : Except String (List String))
    (ipversion : String) :
    ResolveHost lookup ipversion =
      match lookup with
      | .error _ => .error "failed to resolve hostname to IP."
      | .ok addrs =>
        if addrs.length < 1 then .error "failed to resolve hostname to IP."
        else
          match addrs.find? (ipvMatches ipversion) with
          | some addr => .ok addr
          | none => .error "failed to resolve hostname to valid IP." := by
  cases lookup with
  | error e => rfl
  | ok addrs => simp only [ResolveHost, resolveFirst_eq_find]

/-! ## C10 : the Ticker's delivery channel -/

/-- C10 counterexample: after `Delete` (`stop` + shutdown flag), a tick
already armed can still be delivered on `C` before the `Ticks` loop
takes the shutdown branch and closes the channel — the race §9 of the
spec acknowledges — so "after Delete ... no further tick is ever sent on
it" is false as stated. -/
theorem ticker_send_after_delete_counterexample :
    tickerRun newTickerState [.start, .delete, .deliver 5] =
      some { buf := [5], capacity := 1, closed := false, stopped := true,
             armed := false, shutdownFlag := true } := by
  decide

/-- Preservation of the channel-capacity invariant by one Ticker
transition. -/
theorem tickerStep_preserves (s0 s2 : TickerProcState) (op : TickerOp)
    (hcap : s0.capacity = 1) (hlen : s0.buf.length ≤ s0.capacity)
    (hstep : tickerStep s0 op = some s2) :
    s2.capacity = 1 ∧ s2.buf.length ≤ s2.capacity := by
  cases op with
  | start =>
    simp only [tickerStep, Option.some.injEq] at hstep
    subst hstep; exact ⟨hcap, hlen⟩
  | stop =>
    simp only [tickerStep, Option.some.injEq] at hstep
    subst hstep; exact ⟨hcap, hlen⟩
  | delete =>
    simp only [tickerStep] at hstep
    split at hstep
    · simp only [Option.some.injEq] at hstep
      subst hstep; exact ⟨hcap, hlen⟩
    · exact absurd hstep (by simp)
  | deliver ts =>
    simp only [tickerStep] at hstep
    split at hstep
    case isTrue hcond =>
      simp only [Option.some.injEq] at hstep
      subst hstep
      refine ⟨hcap, ?_⟩
      have hlt := hcond.2.2
      simp only [List.length_append, List.length_cons, List.length_nil]
      omega
    case isFalse => exact absurd hstep (by simp)
  | consume =>
    simp only [tickerStep] at hstep
    cases hbuf : s0.buf with
    | nil => rw [hbuf] at hstep; exact absurd hstep (by simp)
    | cons x rest =>
      rw [hbuf] at hstep
      simp only [Option.some.injEq] at hstep
      subst hstep
      refine ⟨hcap, ?_⟩
      have := hlen
      rw [hbuf] at this
      simp only [List.length_cons] at this
      show rest.length ≤ s0.capacity
      omega
  | closeChan =>
    simp only [tickerStep] at hstep
    split at hstep
    · simp only [Option.some.injEq] at hstep
      subst hstep; exact ⟨hcap, hlen⟩
    · exact absurd hstep (by simp)

/-- C10 (amended): in every reachable Ticker state the channel keeps its
creation capacity of one and never holds more than one undelivered tick
(a send blocks rather than overwrite), and once `C` is closed no deliver
transition is enabled, so no tick is ever sent after the close; between
`Delete` and the close one pending tick may still be delivered. -/
theorem ticker_capacity_invariant (ops : List TickerOp) (s : TickerProcState)
    (h : tickerRun newTickerState ops = some s) :
    s.capacity = 1 ∧ s.buf.length ≤ s.capacity
    ∧ (s.closed = true → ∀ ts, tickerStep s (.deliver ts) = none) := by
  have closedNone : ∀ s2 : TickerProcState, s2.closed = true →
      ∀ ts : ℤ, tickerStep s2 (.deliver ts) = none := by
    intro s2 hc ts
    simp [tickerStep, hc]
  have aux : ∀ (ops : List TickerOp) (s0 s1 : TickerProcState),
      s0.capacity = 1 → s0.buf.length ≤ s0.capacity →
      tickerRun s0 ops = some s1 →
      s1.capacity = 1 ∧ s1.buf.length ≤ s1.capacity := by
    intro ops
    induction ops with
    | nil =>
      intro s0 s1 hcap hlen hrun
      simp only [tickerRun, Option.some.injEq] at hrun
      subst hrun
      exact ⟨hcap, hlen⟩
    | cons op rest ih =>
      intro s0 s1 hcap hlen hrun
      simp only [tickerRun] at hrun
      cases hstep : tickerStep s0 op with
      | none => rw [hstep] at hrun; exact absurd hrun (by simp)
      | some s2 =>
        rw [hstep] at hrun
        obtain ⟨hc2, hl2⟩ := tickerStep_preserves s0 s2 op hcap hlen hstep
        exact ih s2 s1 hc2 hl2 hrun
  obtain ⟨h1, h2⟩ := aux ops newTickerState s rfl (by decide) h
  exact ⟨h1, h2, closedNone s⟩

/-- C10 witness: the invariant instantiated on the state reached by
starting the ticker and delivering one tick. -/
theorem ticker_capacity_invariant_witness :
    ({ buf := [5], capacity := 1, closed := false, stopped := false,
       armed := true, shutdownFlag := false } : TickerProcState).capacity = 1
    ∧ ({ buf := [5], capacity := 1, closed := false, stopped := false,
         armed := true, shutdownFlag := false } : TickerProcState).buf.length ≤
        ({ buf := [5], capacity := 1, closed := false, stopped := false,
           armed := true, shutdownFlag := false } : TickerProcState).capacity
    ∧ (({ buf := [5], capacity := 1, closed := false, stopped := false,
          armed := true, shutdownFlag := false } : TickerProcState).closed = true →
        ∀ ts, tickerStep { buf := [5], capacity := 1, closed := false, stopped := false,
                           armed := true, shutdownFlag := false } (.deliver ts) = none) :=
  ticker_capacity_invariant [.start, .deliver 5] _ (by decide)

/-! ## C3 : state-change event emission -/

/-- C3: `checkRunEvents` publishes an event exactly when the new state
(OK on an empty error message, CRIT otherwise) differs from the previous
state, or the state is CRIT and the message differs from the last
recorded error, or the state is CRIT and more than ten minutes have
passed since the last recorded state change; the event carries severity
"ERROR" on a non-empty message and "OK" otherwise, and the tick
timestamp in milliseconds. -/
theorem checkRunEvents_emission (st : InstanceRunState) (errorMsg : String)
    (check : CheckWithSlug) (probeSlug : String) (t now : ℤ) :
    (((checkRunEvents st errorMsg check probeSlug t now).2).isSome = true ↔
      ((if errorMsg = "" then CheckEvalResult.ok else CheckEvalResult.crit) ≠ st.State
        ∨ ((if errorMsg = "" then CheckEvalResult.ok else CheckEvalResult.crit)
              = CheckEvalResult.crit ∧ errorMsg ≠ st.LastError)
        ∨ ((if errorMsg = "" then CheckEvalResult.ok else CheckEvalResult.crit)
              = CheckEvalResult.crit ∧ 600 * 1000000000 < now - st.StateChange)))
    ∧ (∀ e, (checkRunEvents st errorMsg check probeSlug t now).2 = some e →
        e.Severity = (if errorMsg = "" then "OK" else "ERROR")
        ∧ e.Timestamp = Int.tdiv t 1000000) := by
  by_cases hm : errorMsg = ""
  · subst hm
    by_cases hs : st.State = CheckEvalResult.ok
    · simp [checkRunEvents, hs]
    · constructor
      · simp [checkRunEvents, hs, Ne.symm hs]
      · intro e he
        simp [checkRunEvents, hs] at he
        simp [← he]
  · by_cases h1 : st.State = CheckEvalResult.crit
    · by_cases h2 : errorMsg = st.LastError
      · by_cases h3 : (600000000000 : ℤ) < now - st.StateChange
        · constructor
          · simp [checkRunEvents, hm, h1, h2.symm, h3]
          · intro e he
            simp [checkRunEvents, hm, h1, h2.symm, h3] at he
            simp [← he, hm]
        · constructor
          · simp [checkRunEvents, hm, h1, h2.symm, h3]
          · intro e he
            simp [checkRunEvents, hm, h1, h2.symm, h3] at he
      · constructor
        · simp [checkRunEvents, hm, h1, h2]
        · intro e he
          simp [checkRunEvents, hm, h1, h2] at he
          simp [← he, hm]
    · constructor
      · simp [checkRunEvents, hm, h1, Ne.symm h1]
      · intro e he
        simp [checkRunEvents, hm, h1] at he
        simp [← he, hm]

/-! ## C2 : the Ticker's next-fire computation -/

/-- C2: for a positive interval, an offset in `[0, interval)` and a
nonnegative wall-clock second `now`, `Ticker.next` waits
`((interval + offset) − (now mod interval)) mod interval` seconds,
replaced by `interval` when that is zero; hence the wait is between 1
and `interval` and the second at which the tick fires is on phase:
`(now + wait) mod interval = offset`. -/
theorem tickerNext_phase (interval offset now : ℤ)
    (hi : 0 < interval) (ho : 0 ≤ offset) (hoi : offset < interval) (hn : 0 ≤ now) :
    tickerNext interval offset now =
      (if ((interval + offset) - now % interval) % interval = 0 then interval
       else ((interval + offset) - now % interval) % interval)
    ∧ 1 ≤ tickerNext interval offset now
    ∧ tickerNext interval offset now ≤ interval
    ∧ (now + tickerNext interval offset now) % interval = offset := by
  have hi0 : interval ≠ 0 := by omega
  have hr0 : 0 ≤ now % interval := Int.emod_nonneg now hi0
  have hr1 : now % interval < interval := Int.emod_lt_of_pos now hi
  have ht1 : Int.tmod now interval = now % interval :=
    Int.tmod_eq_emod hn (le_of_lt hi)
  have harg : 0 ≤ (interval + offset) - now % interval := by omega
  have heq : tickerNext interval offset now =
      (if ((interval + offset) - now % interval) % interval = 0 then interval
       else ((interval + offset) - now % interval) % interval) := by
    unfold tickerNext
    rw [ht1, Int.tmod_eq_emod harg (le_of_lt hi)]
  set r := now % interval with hr
  have hcase : ((interval + offset) - r) % interval =
      (if r ≤ offset then offset - r else offset - r + interval) := by
    by_cases hc : r ≤ offset
    · rw [if_pos hc]
      have hrw : (interval + offset) - r = (offset - r) + interval * 1 := by ring
      rw [hrw, Int.add_mul_emod_self_left]
      exact Int.emod_eq_of_lt (by omega) (by omega)
    · rw [if_neg hc]
      have hrw : (interval + offset) - r = offset - r + interval := by ring
      rw [hrw]
      exact Int.emod_eq_of_lt (by omega) (by omega)
  have hq := Int.ediv_add_emod now interval
  refine ⟨heq, ?_, ?_, ?_⟩
  · rw [heq]
    split
    · omega
    · rw [hcase]
      split <;> omega
  · rw [heq]
    split
    · omega
    · rw [hcase] at *
      split <;> omega
  · rw [heq]
    by_cases hz : ((interval + offset) - r) % interval = 0
    · rw [if_pos hz]
      rw [hcase] at hz
      have hor : offset = r := by
        by_cases hc : r ≤ offset
        · rw [if_pos hc] at hz; omega
        · rw [if_neg hc] at hz; omega
      have hstep : now + interval = now + interval * 1 := by ring
      rw [hstep, Int.add_mul_emod_self_left, ← hr]
      omega
    · rw [if_neg hz, hcase]
      by_cases hc : r ≤ offset
      · rw [if_pos hc]
        have hkey : now + (offset - r) = offset + interval * (now / interval) := by omega
        rw [hkey, Int.add_mul_emod_self_left]
        exact Int.emod_eq_of_lt ho hoi
      · rw [if_neg hc]
        have hkey : now + (offset - r + interval) = offset + interval * (now / interval + 1) := by
          have : interval * (now / interval + 1) = interval * (now / interval) + interval := by ring
          omega
        rw [hkey, Int.add_mul_emod_self_left]
        exact Int.emod_eq_of_lt ho hoi

/-- C2 witness: interval 60, offset 7, now 123 — the wait is 4 seconds
and the tick second 127 is on phase. -/
theorem tickerNext_phase_witness :
    tickerNext 60 7 123 =
      (if ((60 + 7) - (123 : ℤ) % 60) % 60 = 0 then 60
       else ((60 + 7) - (123 : ℤ) % 60) % 60)
    ∧ 1 ≤ tickerNext 60 7 123
    ∧ tickerNext 60 7 123 ≤ 60
    ∧ ((123 : ℤ) + tickerNext 60 7 123) % 60 = 7 :=
  tickerNext_phase 60 7 123 (by decide) (by decide) (by decide) (by decide)

/-! ## C6 : timeout validation in the executor constructors -/

/-- C6 counterexample: a timeout of 11 seconds — outside the claimed
range 0 < t ≤ 10 — is accepted by the ping constructor; the cited
constructors only reject t ≤ 0 and enforce no upper bound. -/
theorem timeout_upper_bound_counterexample :
    exceptOk (NewRaintankPingProbe
      [("hostname", .str "grafana.com"), ("timeout", .num 11)]) = true
    ∧ ¬((11 : ℚ) ≤ 10) :=
  ⟨by decide, by decide⟩

/-- C6 (amended): for the HTTP, HTTPS, PING and DNS constructors, with
all other settings valid and "timeout" present as a number t,
construction succeeds exactly when 0 < t; values above 10 seconds are
accepted (only t ≤ 0 is rejected). -/
theorem timeout_validation_amended (t : ℚ) (host recordName : String)
    (hh : host ≠ "") (hr : recordName ≠ "") :
    (exceptOk (NewRaintankHTTPProbe
        [("host", .str host), ("path", .str "/"), ("timeout", .num t)]) = true ↔ 0 < t)
    ∧ (exceptOk (NewRaintankHTTPSProbe
        [("host", .str host), ("path", .str "/"), ("timeout", .num t)]) = true ↔ 0 < t)
    ∧ (exceptOk (NewRaintankPingProbe
        [("hostname", .str host), ("timeout", .num t)]) = true ↔ 0 < t)
    ∧ (exceptOk (NewRaintankDnsProbe
        [("name", .str recordName), ("type", .str "A"), ("server", .str "8.8.8.8"),
         ("timeout", .num t)]) = true ↔ 0 < t) := by
  have hhttp : NewRaintankHTTPProbe
      [("host", .str host), ("path", .str "/"), ("timeout", .num t)]
      = (if t ≤ 0 then .error "invalid value for timeout, must be greater then 0."
         else .ok { Host := host, Path := "/", Port := 80, Method := "GET", Headers := "",
                    ExpectRegex := "", Body := "", Timeout := 1000000 * ratTrunc (1000 * t),
                    DownloadLimit := 100 * 1024, IPVersion := "v4" }) := by
    simp [NewRaintankHTTPProbe, lookupSetting, hh]
  have hhttps : NewRaintankHTTPSProbe
      [("host", .str host), ("path", .str "/"), ("timeout", .num t)]
      = (if t ≤ 0 then .error "invalid value for timeout, must be greater then 0."
         else .ok { Host := host, Path := "/", Port := 443, ValidateCert := true,
                    Method := "GET", Headers := "", ExpectRegex := "", Body := "",
                    Timeout := 1000000 * ratTrunc (1000 * t),
                    DownloadLimit := 100 * 1024 }) := by
    simp [NewRaintankHTTPSProbe, lookupSetting, hh]
  have hping : NewRaintankPingProbe
      [("hostname", .str host), ("timeout", .num t)]
      = (if t ≤ 0 then .error "invalid value for timeout, must be greater then 0."
         else .ok { Hostname := host, Timeout := 1000000 * ratTrunc (1000 * t),
                    IPVersion := "v4" }) := by
    simp [NewRaintankPingProbe, lookupSetting, hh]
  have hdns : NewRaintankDnsProbe
      [("name", .str recordName), ("type", .str "A"), ("server", .str "8.8.8.8"),
       ("timeout", .num t)]
      = (if t ≤ 0 then .error "invalid value for timeout, must be greater then 0."
         else .ok { RecordName := recordName, RecordType := "A", Servers := ["8.8.8.8"],
                    Port := 53, Protocol := "udp",
                    Timeout := 1000000 * ratTrunc (1000 * t) }) := by
    simp [NewRaintankDnsProbe, lookupSetting, hr, goSplit, goSplitAux, recordTypeToWireType]
  refine ⟨?_, ?_, ?_, ?_⟩
  · rw [hhttp]
    by_cases ht : t ≤ 0
    · rw [if_pos ht]
      simp only [exceptOk, Bool.false_eq_true, false_iff]
      exact not_lt.mpr ht
    · rw [if_neg ht]
      simp only [exceptOk, true_iff]
      exact not_le.mp ht
  · rw [hhttps]
    by_cases ht : t ≤ 0
    · rw [if_pos ht]
      simp only [exceptOk, Bool.false_eq_true, false_iff]
      exact not_lt.mpr ht
    · rw [if_neg ht]
      simp only [exceptOk, true_iff]
      exact not_le.mp ht
  · rw [hping]
    by_cases ht : t ≤ 0
    · rw [if_pos ht]
      simp only [exceptOk, Bool.false_eq_true, false_iff]
      exact not_lt.mpr ht
    · rw [if_neg ht]
      simp only [exceptOk, true_iff]
      exact not_le.mp ht
  · rw [hdns]
    by_cases ht : t ≤ 0
    · rw [if_pos ht]
      simp only [exceptOk, Bool.false_eq_true, false_iff]
      exact not_lt.mpr ht
    · rw [if_neg ht]
      simp only [exceptOk, true_iff]
      exact not_le.mp ht

/-- C6 witness: with valid remaining settings, a timeout of 3 seconds is
accepted by all four constructors. -/
theorem timeout_validation_amended_witness :
    (exceptOk (NewRaintankHTTPProbe
        [("host", .str "grafana.com"), ("path", .str "/"), ("timeout", .num 3)]) = true ↔ (0 : ℚ) < 3)
    ∧ (exceptOk (NewRaintankHTTPSProbe
        [("host", .str "grafana.com"), ("path", .str "/"), ("timeout", .num 3)]) = true ↔ (0 : ℚ) < 3)
    ∧ (exceptOk (NewRaintankPingProbe
        [("hostname", .str "grafana.com"), ("timeout", .num 3)]) = true ↔ (0 : ℚ) < 3)
    ∧ (exceptOk (NewRaintankDnsProbe
        [("name", .str "example.net"), ("type", .str "A"), ("server", .str "8.8.8.8"),
         ("timeout", .num 3)]) = true ↔ (0 : ℚ) < 3) :=
  timeout_validation_amended 3 "grafana.com" "example.net" (by decide) (by decide)

/-! ## C4 and C5 : the ping outcome -/

theorem pingStats_wf (reqs : List (Option ℤ)) :
    0 ≤ (pingStats reqs).Received
    ∧ (pingStats reqs).Received ≤ (pingStats reqs).Sent
    ∧ ((pingStats reqs).Latency.length : ℤ) = (pingStats reqs).Received := by
  refine ⟨by simp [pingStats], ?_, rfl⟩
  simp only [pingStats]
  exact_mod_cast List.length_filterMap_le id reqs

theorem ping_counts_of_le (timeout : ℤ) (stats : PingStats)
    (hle : ∀ m ∈ stats.Latency, m ≤ timeout) :
    pingSuccessCount timeout stats = stats.Received
    ∧ pingFailCount timeout stats = stats.Sent - stats.Received := by
  have hfe : stats.Latency.filter (fun m => timeout < m) = [] := by
    rw [List.filter_eq_nil_iff]
    intro m hm
    simpa using hle m hm
  constructor
  · simp [pingSuccessCount, hfe]
  · simp [pingFailCount, hfe]

theorem pingRunStats_loss (timeout : ℤ) (stats : PingStats) :
    (pingRunStats timeout stats).Loss =
      some (if pingFailCount timeout stats = 0 then (0 : ℚ)
            else 100 * ((pingFailCount timeout stats : ℚ) / (stats.Sent : ℚ))) := by
  simp only [pingRunStats]
  split <;> split <;> rfl

theorem pingRunStats_error_iff (timeout : ℤ) (stats : PingStats) :
    ((pingRunStats timeout stats).Error = some "100% packet loss" ↔
      (if pingFailCount timeout stats = 0 then (0 : ℚ)
       else 100 * ((pingFailCount timeout stats : ℚ) / (stats.Sent : ℚ))) = 100) := by
  simp only [pingRunStats]
  split
  · split
    · simp_all
    · split <;> simp_all
  · split
    · simp_all
    · split <;> simp_all

/-- C4 counterexample: with the default 5-second timeout and five
received replies of 6 seconds each, received = sent = 5, yet the code
reclassifies every reply as failed and reports loss 100 — the claim's
`loss = 100*(sent−received)/sent = 0` and its "measurements used equal
received" both fail at this input. -/
theorem ping_loss_counterexample :
    (pingStats (List.replicate 5 (some 6000000000))).Received
        = (pingStats (List.replicate 5 (some 6000000000))).Sent
    ∧ (pingStats (List.replicate 5 (some 6000000000))).Sent = 5
    ∧ (pingRunStats 5000000000 (pingStats (List.replicate 5 (some 6000000000)))).Loss
        = some 100
    ∧ pingSuccessCount 5000000000 (pingStats (List.replicate 5 (some 6000000000))) = 0 := by
  refine ⟨rfl, rfl, ?_, by decide⟩
  rw [pingRunStats_loss]
  have hf : pingFailCount 5000000000 (pingStats (List.replicate 5 (some 6000000000))) = 5 := by
    decide
  have hs : (pingStats (List.replicate 5 (some 6000000000))).Sent = 5 := by decide
  rw [hf, hs]
  norm_num

/-- C4 (amended): for every pinger outcome, `sent ≥ received ≥ 0` and
`len(latencies) = received` hold by the pinger's construction; and
provided every reported latency is within the timeout (so the
reclassification loop of ping.go is a no-op), the reported loss equals
`100*(sent−received)/sent` (zero when `received = sent`) and the
denominator/measurement count used to derive min/max/avg/median/mdev
equals `received`. -/
theorem ping_outcome_amended (reqs : List (Option ℤ)) (timeout : ℤ)
    (hle : ∀ m ∈ (pingStats reqs).Latency, m ≤ timeout) :
    0 ≤ (pingStats reqs).Received
    ∧ (pingStats reqs).Received ≤ (pingStats reqs).Sent
    ∧ ((pingStats reqs).Latency.length : ℤ) = (pingStats reqs).Received
    ∧ (pingRunStats timeout (pingStats reqs)).Loss
        = some (100 * ((((pingStats reqs).Sent - (pingStats reqs).Received : ℤ) : ℚ)
            / (((pingStats reqs).Sent : ℤ) : ℚ)))
    ∧ pingSuccessCount timeout (pingStats reqs) = (pingStats reqs).Received
    ∧ ((pingMeasurements timeout (pingStats reqs)).length : ℤ) = (pingStats reqs).Received := by
  obtain ⟨h0, hle2, hlen⟩ := pingStats_wf reqs
  obtain ⟨hsc, hfc⟩ := ping_counts_of_le timeout (pingStats reqs) hle
  refine ⟨h0, hle2, hlen, ?_, hsc, ?_⟩
  · rw [pingRunStats_loss, hfc]
    by_cases hf : (pingStats reqs).Sent - (pingStats reqs).Received = 0
    · rw [if_pos hf, hf]
      norm_num
    · rw [if_neg hf]
  · rw [← hlen]
    simp [pingMeasurements]

/-- C4 witness: five echoes, two replies of 0.1 s and 0.2 s within the
5-second timeout — loss is 100·(5−2)/5 = 60 and the counts line up. -/
theorem ping_outcome_amended_witness :
    0 ≤ (pingStats [some 100000000, some 200000000, none, none, none]).Received
    ∧ (pingStats [some 100000000, some 200000000, none, none, none]).Received
        ≤ (pingStats [some 100000000, some 200000000, none, none, none]).Sent
    ∧ (((pingStats [some 100000000, some 200000000, none, none, none]).Latency.length : ℤ)
        = (pingStats [some 100000000, some 200000000, none, none, none]).Received)
    ∧ (pingRunStats 5000000000 (pingStats [some 100000000, some 200000000, none, none, none])).Loss
        = some (100 * ((((pingStats [some 100000000, some 200000000, none, none, none]).Sent
              - (pingStats [some 100000000, some 200000000, none, none, none]).Received : ℤ) : ℚ)
            / (((pingStats [some 100000000, some 200000000, none, none, none]).Sent : ℤ) : ℚ)))
    ∧ pingSuccessCount 5000000000 (pingStats [some 100000000, some 200000000, none, none, none])
        = (pingStats [some 100000000, some 200000000, none, none, none]).Received
    ∧ (((pingMeasurements 5000000000
          (pingStats [some 100000000, some 200000000, none, none, none])).length : ℤ)
        = (pingStats [some 100000000, some 200000000, none, none, none]).Received) :=
  ping_outcome_amended [some 100000000, some 200000000, none, none, none] 5000000000 (by decide)

/-- C5 counterexample: one reply received but slower than the timeout —
the code computes loss 100 and sets `error = "100% packet loss"` even
though received = 1 ≠ 0, refuting the claimed "iff received = 0". -/
theorem ping_error_counterexample :
    (pingStats [some 6000000000, none, none, none, none]).Received = 1
    ∧ (pingRunStats 5000000000 (pingStats [some 6000000000, none, none, none, none])).Error
        = some "100% packet loss" := by
  refine ⟨rfl, ?_⟩
  rw [pingRunStats_error_iff]
  have hf : pingFailCount 5000000000 (pingStats [some 6000000000, none, none, none, none]) = 5 := by
    decide
  have hs : (pingStats [some 6000000000, none, none, none, none]).Sent = 5 := by decide
  rw [hf, hs]
  norm_num

/-- C5 (amended): provided every reported latency is within the timeout,
the result's error field is "100% packet loss" iff the number of
received replies is zero; in general the condition is that the
reclassified success count is zero. -/
theorem ping_error_iff_amended (reqs : List (Option ℤ)) (timeout : ℤ)
    (hle : ∀ m ∈ (pingStats reqs).Latency, m ≤ timeout)
    (hsent : 0 < (pingStats reqs).Sent) :
    ((pingRunStats timeout (pingStats reqs)).Error = some "100% packet loss"
      ↔ (pingStats reqs).Received = 0) := by
  obtain ⟨h0, hle2, hlen⟩ := pingStats_wf reqs
  obtain ⟨hsc, hfc⟩ := ping_counts_of_le timeout (pingStats reqs) hle
  rw [pingRunStats_error_iff, hfc]
  by_cases hf : (pingStats reqs).Sent - (pingStats reqs).Received = 0
  · rw [if_pos hf]
    constructor
    · intro hc; norm_num at hc
    · intro hr; omega
  · rw [if_neg hf]
    have hS : ((pingStats reqs).Sent : ℚ) ≠ 0 := by
      exact_mod_cast (by omega : (pingStats reqs).Sent ≠ 0)
    constructor
    · intro h100
      have h3 : (((pingStats reqs).Sent - (pingStats reqs).Received : ℤ) : ℚ)
          / ((pingStats reqs).Sent : ℚ) = 1 := by linarith
      have h4 : (((pingStats reqs).Sent - (pingStats reqs).Received : ℤ) : ℚ)
          = 1 * ((pingStats reqs).Sent : ℚ) := (div_eq_iff hS).mp h3
      rw [one_mul] at h4
      have h5 : (pingStats reqs).Sent - (pingStats reqs).Received = (pingStats reqs).Sent := by
        exact_mod_cast h4
      omega
    · intro hr
      rw [hr, sub_zero, div_self hS]
      norm_num

/-- C5 witness: five echoes, no replies — received = 0 and the error is
set. -/
theorem ping_error_iff_amended_witness :
    ((pingRunStats 5000000000 (pingStats (List.replicate 5 none))).Error
        = some "100% packet loss"
      ↔ (pingStats (List.replicate 5 none)).Received = 0) :=
  ping_error_iff_amended (List.replicate 5 none) 5000000000 (by decide) (by decide)

/-! ## C7 : failure encoding in the executors -/

/-- C7 counterexample: a ping executor built from valid settings whose
pinger call fails (e.g. "Pinger service is shutdown.") makes `Run`
return `(nil, err)` — a raised Go error, not a failure encoded in the
result — refuting "executors never raise". -/
theorem ping_run_raises_counterexample :
    (NewRaintankPingProbe [("hostname", .str "grafana.com")]).map
      (fun p => exceptOk (pingRun p
        { lookup := .ok ["8.8.8.8"], resolveTimedOut := false,
          pinger := .error "Pinger service is shutdown." })) = .ok false := rfl

/-- C7 (amended): the DNS, HTTP and HTTPS executors return a non-nil
result with a nil error on every outcome, encoding failures in the
result's error field; the PING executor does so for every resolution
outcome, but raises exactly when the underlying pinger call itself
fails. -/
theorem executors_encode_errors_amended (pd : RaintankProbeDns)
    (outcomes : List DnsExchange) (ph : RaintankProbeHTTP) (envh : HTTPEnv)
    (ps : RaintankProbeHTTPS) (envs : HTTPSEnv)
    (pp : RaintankProbePing) (envp : PingEnv) :
    exceptOk (dnsRun pd outcomes) = true
    ∧ exceptOk (httpRun ph envh) = true
    ∧ exceptOk (httpsRun ps envs) = true
    ∧ (exceptOk (pingRun pp envp) = false
        ↔ exceptOk (ResolveHost envp.lookup pp.IPVersion) = true
          ∧ envp.resolveTimedOut = false
          ∧ exceptOk envp.pinger = false) := by
  refine ⟨rfl, ?_, ?_, ?_⟩
  · simp only [httpRun]
    repeat' split
    all_goals rfl
  · simp only [httpsRun]
    repeat' split
    all_goals rfl
  · unfold pingRun
    cases hres : ResolveHost envp.lookup pp.IPVersion with
    | error e => simp [exceptOk, hres]
    | ok ip =>
      cases htmo : envp.resolveTimedOut with
      | true => simp [exceptOk, hres, htmo]
      | false =>
        cases hping : envp.pinger with
        | error e => simp [exceptOk, hres, htmo, hping]
        | ok stats => simp [exceptOk, hres, htmo, hping]

/-! ## C1 : Refresh reconciliation -/

theorem mapLookup_nil (k : ℤ) : mapLookup ([] : SMap) k = none := rfl

theorem mapLookup_cons (a : ℤ × CheckInstance) (rest : SMap) (k : ℤ) :
    mapLookup (a :: rest) k = if a.1 = k then some a.2 else mapLookup rest k := by
  by_cases h : a.1 = k
  · simp [mapLookup, List.find?_cons_of_pos, h]
  · simp [mapLookup, List.find?_cons_of_neg, h]

theorem mapLookup_map_replace (m : SMap) (k : ℤ) (v : CheckInstance) (k2 : ℤ) :
    mapLookup (m.map (fun kv => if kv.1 = k then (k, v) else kv)) k2 =
      if k2 = k then (mapLookup m k).map (fun _ => v) else mapLookup m k2 := by
  induction m with
  | nil => by_cases hk2 : k2 = k <;> simp [mapLookup, hk2]
  | cons a rest ih =>
    obtain ⟨ak, av⟩ := a
    rw [List.map_cons]
    by_cases hak : ak = k
    · subst hak
      by_cases hk2 : k2 = ak
      · subst hk2
        simp [mapLookup_cons]
      · simp [mapLookup_cons, ih, hk2, Ne.symm hk2]
    · by_cases hk2 : k2 = k
      · subst hk2
        simp [mapLookup_cons, ih, hak]
      · by_cases hk3 : ak = k2 <;> simp [mapLookup_cons, ih, hak, hk2, hk3]

theorem mapLookup_append (m : SMap) (k : ℤ) (v : CheckInstance) (k2 : ℤ) :
    mapLookup (m ++ [(k, v)]) k2 =
      (if (mapLookup m k2).isSome then mapLookup m k2
       else if k2 = k then some v else none) := by
  induction m with
  | nil =>
    by_cases hk2 : k2 = k
    · subst hk2
      simp [mapLookup_nil, mapLookup_cons]
    · simp [mapLookup_nil, mapLookup_cons, hk2, Ne.symm hk2]
  | cons a rest ih =>
    by_cases ha : a.1 = k2
    · simp [List.cons_append, mapLookup_cons, ha]
    · simp [List.cons_append, mapLookup_cons, ha, ih]

theorem mapLookup_insert (m : SMap) (k : ℤ) (v : CheckInstance) (k2 : ℤ) :
    mapLookup (mapInsert m k v) k2 = if k2 = k then some v else mapLookup m k2 := by
  unfold mapInsert
  by_cases hs : (mapLookup m k).isSome
  · rw [if_pos hs, mapLookup_map_replace]
    by_cases hk2 : k2 = k
    · rw [if_pos hk2, if_pos hk2]
      obtain ⟨x, hx⟩ := Option.isSome_iff_exists.mp hs
      rw [hx]
      rfl
    · rw [if_neg hk2, if_neg hk2]
  · rw [if_neg hs, mapLookup_append]
    by_cases hk2 : k2 = k
    · subst hk2
      simp only [Option.not_isSome_iff_eq_none] at hs
      simp [hs]
    · by_cases h2 : (mapLookup m k2).isSome
      · rw [if_pos h2, if_neg hk2]
      · simp only [Option.not_isSome_iff_eq_none] at h2
        simp [h2, hk2]

theorem mapLookup_filterKeys (p : ℤ → Bool) (m : SMap) (k : ℤ) :
    mapLookup (m.filter (fun kv => p kv.1)) k = if p k then mapLookup m k else none := by
  induction m with
  | nil => by_cases hp : p k <;> simp [mapLookup_nil, hp]
  | cons a rest ih =>
    by_cases hpa : p a.1 <;> by_cases hak : a.1 = k <;>
      simp_all [List.filter_cons, mapLookup_cons]

theorem seenChecks_mem (cs : List CheckWithSlug) (id : ℤ) :
    (seenChecks cs).contains id = true ↔ ∃ c ∈ cs, c.Enabled = true ∧ c.Id = id := by
  simp only [seenChecks, List.contains_iff_exists_mem_beq, List.mem_map, List.mem_filter,
    beq_iff_eq]
  constructor
  · rintro ⟨x, ⟨c, ⟨hc, hen⟩, hid⟩, hxid⟩
    exact ⟨c, hc, hen, by rw [hid, hxid]⟩
  · rintro ⟨c, hc, hen, hid⟩
    exact ⟨id, ⟨c, ⟨hc, hen⟩, hid⟩, rfl⟩

theorem refreshLoop_preserves (healthy : Bool) (cs : List CheckWithSlug) :
    ∀ (m : SMap) (id : ℤ),
      (∀ c ∈ cs, c.Enabled = true → exceptOk (GetCheck c.ctype c.Settings) = true) →
      (mapLookup m id).isSome = true →
      (mapLookup (refreshLoop healthy m cs) id).isSome = true := by
  induction cs with
  | nil =>
    intro m id _ hs
    simpa [refreshLoop] using hs
  | cons c rest ih =>
    intro m id h hs
    have hrest : ∀ c2 ∈ rest, c2.Enabled = true →
        exceptOk (GetCheck c2.ctype c2.Settings) = true :=
      fun c2 hc2 => h c2 (List.mem_cons_of_mem c hc2)
    rw [refreshLoop]
    by_cases hen : c.Enabled = true
    · rw [if_neg (by simp [hen])]
      cases hlk : mapLookup m c.Id with
      | some existing =>
        simp only []
        by_cases hupd : existing.check.Updated < c.Updated
        · rw [if_pos hupd]
          have hui : ∃ inst, instanceUpdate existing c healthy = Except.ok inst := by
            obtain ⟨ex, hex⟩ := (exceptOk_iff _).mp (h c (List.mem_cons_self c rest) hen)
            unfold instanceUpdate
            rw [hex]
            exact ⟨_, rfl⟩
          obtain ⟨inst, hui⟩ := hui
          rw [hui]
          simp only []
          apply ih _ id hrest
          rw [mapLookup_insert]
          by_cases hid : id = c.Id
          · simp [hid]
          · rw [if_neg hid]
            exact hs
        · rw [if_neg hupd]
          exact ih m id hrest hs
      | none =>
        simp only []
        have hni : ∃ inst, NewCheckInstance c healthy = Except.ok inst := by
          obtain ⟨ex, hex⟩ := (exceptOk_iff _).mp (h c (List.mem_cons_self c rest) hen)
          unfold NewCheckInstance
          rw [hex]
          exact ⟨_, rfl⟩
        obtain ⟨inst, hni⟩ := hni
        rw [hni]
        simp only []
        apply ih _ id hrest
        rw [mapLookup_insert]
        by_cases hid : id = c.Id
        · simp [hid]
        · rw [if_neg hid]
          exact hs
    · rw [if_pos (by simpa using hen)]
      exact ih m id hrest hs

theorem refreshLoop_hits (healthy : Bool) (cs : List CheckWithSlug) :
    ∀ (m : SMap) (c : CheckWithSlug),
      (∀ c2 ∈ cs, c2.Enabled = true → exceptOk (GetCheck c2.ctype c2.Settings) = true) →
      c ∈ cs → c.Enabled = true →
      (mapLookup (refreshLoop healthy m cs) c.Id).isSome = true := by
  induction cs with
  | nil =>
    intro m c _ hc
    exact absurd hc (List.not_mem_nil c)
  | cons c0 rest ih =>
    intro m c h hc hen
    have hrest : ∀ c2 ∈ rest, c2.Enabled = true →
        exceptOk (GetCheck c2.ctype c2.Settings) = true :=
      fun c2 hc2 => h c2 (List.mem_cons_of_mem c0 hc2)
    rcases List.mem_cons.mp hc with hceq | hcrest
    · subst hceq
      rw [refreshLoop, if_neg (by simp [hen])]
      cases hlk : mapLookup m c.Id with
      | some existing =>
        simp only []
        by_cases hupd : existing.check.Updated < c.Updated
        · rw [if_pos hupd]
          have hui : ∃ inst, instanceUpdate existing c healthy = Except.ok inst := by
            obtain ⟨ex, hex⟩ := (exceptOk_iff _).mp (h c (List.mem_cons_self c rest) hen)
            unfold instanceUpdate
            rw [hex]
            exact ⟨_, rfl⟩
          obtain ⟨inst, hui⟩ := hui
          rw [hui]
          simp only []
          apply refreshLoop_preserves healthy rest _ c.Id hrest
          rw [mapLookup_insert, if_pos rfl]
          rfl
        · rw [if_neg hupd]
          apply refreshLoop_preserves healthy rest _ c.Id hrest
          rw [hlk]
          rfl
      | none =>
        simp only []
        have hni : ∃ inst, NewCheckInstance c healthy = Except.ok inst := by
          obtain ⟨ex, hex⟩ := (exceptOk_iff _).mp (h c (List.mem_cons_self c rest) hen)
          unfold NewCheckInstance
          rw [hex]
          exact ⟨_, rfl⟩
        obtain ⟨inst, hni⟩ := hni
        rw [hni]
        simp only []
        apply refreshLoop_preserves healthy rest _ c.Id hrest
        rw [mapLookup_insert, if_pos rfl]
        rfl
    · rw [refreshLoop]
      by_cases hen0 : c0.Enabled = true
      · rw [if_neg (by simp [hen0])]
        cases hlk : mapLookup m c0.Id with
        | some existing =>
          simp only []
          by_cases hupd : existing.check.Updated < c0.Updated
          · rw [if_pos hupd]
            have hui : ∃ inst, instanceUpdate existing c0 healthy = Except.ok inst := by
              obtain ⟨ex, hex⟩ := (exceptOk_iff _).mp (h c0 (List.mem_cons_self c0 rest) hen0)
              unfold instanceUpdate
              rw [hex]
              exact ⟨_, rfl⟩
            obtain ⟨inst, hui⟩ := hui
            rw [hui]
            simp only []
            exact ih _ c hrest hcrest hen
          · rw [if_neg hupd]
            exact ih _ c hrest hcrest hen
        | none =>
          simp only []
          have hni : ∃ inst, NewCheckInstance c0 healthy = Except.ok inst := by
            obtain ⟨ex, hex⟩ := (exceptOk_iff _).mp (h c0 (List.mem_cons_self c0 rest) hen0)
            unfold NewCheckInstance
            rw [hex]
            exact ⟨_, rfl⟩
          obtain ⟨inst, hni⟩ := hni
          rw [hni]
          simp only []
          exact ih _ c hrest hcrest hen
      · rw [if_pos (by simpa using hen0)]
        exact ih _ c hrest hcrest hen

/-- C1: across a `Refresh` with incoming checks whose settings are valid
(so executor construction succeeds), the set of ids held by the
scheduler equals exactly the set of ids of the enabled incoming checks:
every enabled incoming check has a local instance, no disabled incoming
check has one, and every previously-present id outside the incoming
enabled set has been deleted. -/
theorem Refresh_id_set (s : Scheduler) (cs : List CheckWithSlug)
    (h : ∀ c ∈ cs, c.Enabled = true → exceptOk (GetCheck c.ctype c.Settings) = true)
    (id : ℤ) :
    (mapLookup ((s.Refresh cs).Checks) id).isSome = true
      ↔ ∃ c ∈ cs, c.Enabled = true ∧ c.Id = id := by
  unfold Scheduler.Refresh
  simp only []
  rw [mapLookup_filterKeys (fun x => (seenChecks cs).contains x)]
  constructor
  · intro hsome
    by_cases hcont : (seenChecks cs).contains id = true
    · exact (seenChecks_mem cs id).mp hcont
    · rw [if_neg (by simpa using hcont)] at hsome
      exact absurd hsome (by simp)
  · intro hex
    have hcont : (seenChecks cs).contains id = true := (seenChecks_mem cs id).mpr hex
    rw [if_pos hcont]
    obtain ⟨c, hc, hen, hid⟩ := hex
    subst hid
    exact refreshLoop_hits s.Healthy cs s.Checks c h hc hen

/-- C1 witness: refreshing an empty scheduler with one enabled ping
check (valid settings) puts exactly its id in the map. -/
theorem Refresh_id_set_witness :
    (mapLookup (((Scheduler.mk [] [] true).Refresh
        [{ Id := 1, OrgId := 1, Slug := "ep", ctype := .ping, Frequency := 60, Offset := 0,
           Enabled := true, Updated := 0,
           Settings := [("hostname", .str "grafana.com")] }]).Checks) 1).isSome = true :=
  (Refresh_id_set (Scheduler.mk [] [] true)
      [{ Id := 1, OrgId := 1, Slug := "ep", ctype := .ping, Frequency := 60, Offset := 0,
         Enabled := true, Updated := 0,
         Settings := [("hostname", .str "grafana.com")] }]
      (by decide) 1).mpr (by decide)

end Worldping
